import Mathlib

/-!
Shallow embedding of `amplifier/codex_cli.py` (classes `CodexSettings`,
`CodexCLI`, `CodexRunResult`, error taxonomy) together with theorems checking
the specification claims.

External effects (the filesystem, `shutil.which`, `os.access`, spawned
subprocesses, `click.confirm`) are modelled by an explicit `World` of oracles,
and every helper additionally returns the list of observable `Event`s
(verification spawns, confirmation prompts, run spawns) so that properties of
the form "no process is spawned" can be stated about traces.
-/

namespace Amplifier

/-- Outcome of the self-check invocation `subprocess.run([binary, "--version"], check=True)`:
success, `CalledProcessError` with captured streams, or `FileNotFoundError`. -/
inductive VerResult where
  | ok
  | nonzeroExit (stdout stderr : String)
  | launchFail
deriving DecidableEq, Repr

/-- Outcome of `subprocess.run(command, check=False, capture_output=True, text=True, timeout=...)`:
normal completion, `subprocess.TimeoutExpired` (whose `stdout`/`stderr` may be `None`),
or `FileNotFoundError`. -/
inductive RunOutcome where
  | completed (returncode : Int) (stdout stderr : String)
  | timeoutExpired (stdoutPart stderrPart : Option String)
  | launchFail
deriving DecidableEq, Repr

/-- Observable side effects of the pipeline: spawning the `--version` self-check,
calling `click.confirm prompt default`, spawning the built command. -/
inductive Event where
  | spawnedVerify (binary : String)
  | confirmed (prompt : String) (dflt : Bool)
  | spawnedRun (command : List String)
deriving DecidableEq, Repr

/-- `amplifier.config.codex.CodexSettings`: `bin`, `sandbox`, `default_mode`,
`default_timeout`. `sandbox` is kept optional so the `None` guard in
`resolve_sandbox` is representable. -/
structure CodexSettings where
  bin : Option String
  sandbox : Option String
  default_mode : String
  default_timeout : Option Int
deriving DecidableEq, Repr

/-- The state of a `CodexCLI` instance: its settings, the `codex_bin` constructor
override (`_binary_override`), and the `_cached_binary` cache. -/
structure CodexCLI where
  settings : CodexSettings
  binary_override : Option String
  cached_binary : Option String
deriving DecidableEq, Repr

/-- The environment: oracles for `os.access(_, X_OK)`, `shutil.which`, the
`--version` self-check, `Path(_).expanduser().resolve()`, the set of existing
directories, `mkdir` failures (`some msg` = `OSError(msg)`), the operator's
answer to `click.confirm`, and the spawned run's outcome. -/
structure World where
  xok : String → Bool
  which : String → Option String
  verRun : String → VerResult
  canon : String → String
  dirs : String → Bool
  mkdirFail : String → Option String
  confirmAnswer : String → Bool
  run : List String → Option Int → RunOutcome

/-- The error taxonomy of `codex_cli.py`. `executionError` carries the fields of
`CodexExecutionError.__init__` with `messageArg` being the `message` argument
(`none` when the call site passes no message). -/
inductive CodexError where
  | unavailable (message : String)
  | sandboxError (message : String)
  | executionError (command : List String) (returncode : Int) (stdout stderr : String)
      (messageArg : Option String)
  | cancelled (message : String)
deriving DecidableEq, Repr

/-- `CodexExecutionError.__init__`: `self.message = message or "Codex execution failed"`. -/
def execErrorMessage (messageArg : Option String) : String :=
  messageArg.getD "Codex execution failed"

/-- `CodexRunResult` dataclass. -/
structure CodexRunResult where
  command : List String
  returncode : Option Int
  stdout : String
  stderr : String
  dry_run : Bool
deriving DecidableEq, Repr

/-- Python string truthiness fallback `a or b` for strings. -/
def pyOrS (a b : String) : String :=
  if a = "" then b else a

/-- Python `a or b` where `a` is an optional string (`None` and `""` are falsy). -/
def pyOrOptS (a : Option String) (b : String) : String :=
  match a with
  | some s => pyOrS s b
  | none => b

/-- Python `a or b` producing an optional value (`None` and `""` are falsy on the left). -/
def pyOrOpt (a b : Option String) : Option String :=
  match a with
  | some s => if s = "" then b else some s
  | none => b

/-- POSIX `os.path.isabs`: the path starts with a slash. -/
def isAbsPath (s : String) : Bool :=
  s.data.head? = some '/'

/-- Python `str.strip()` whitespace set (ASCII part). -/
def pyWhitespace (c : Char) : Bool :=
  c = ' ' || c = '\t' || c = '\n' || c = '\x0d' || c = '\x0b' || c = '\x0c'

/-- Python `str.strip()`: drop leading and trailing whitespace. -/
def pyStrip (s : String) : String :=
  String.mk (((s.data.dropWhile pyWhitespace).reverse.dropWhile pyWhitespace).reverse)

/-- Characters `shlex.quote` leaves unquoted: ASCII `\w` plus at-sign, percent,
plus, equals, colon, comma, dot, slash, hyphen. -/
def shlexSafeChar (c : Char) : Bool :=
  c.isAlphanum || c = '_' || c = '@' || c = '%' || c = '+' || c = '=' ||
    c = ':' || c = ',' || c = '.' || c = '/' || c = '-'

/-- `shlex.quote`: empty strings become `''`; strings of safe characters pass
through; anything else is single-quoted with each embedded single quote
rewritten to the five-character escape. -/
def shlexQuote (s : String) : String :=
  if s = "" then "''"
  else if s.data.all shlexSafeChar then s
  else "'" ++ String.mk (s.data.flatMap fun c =>
    if c = '\'' then "'\"'\"'".data else [c]) ++ "'"

/-- `" ".join(parts)`. -/
def joinSpace : List String → String
  | [] => ""
  | [p] => p
  | p :: rest => p ++ " " ++ joinSpace rest

/-- `" ".join(shlex.quote(part) for part in command)` — used both by
`CodexRunResult.command_display` and inline in `execute`. -/
def command_display (command : List String) : String :=
  joinSpace (command.map shlexQuote)

/-- `Path.mkdir(parents=True, exist_ok=True)`: succeeds silently when the
directory exists, fails with the world's `OSError` message when creation is
blocked, otherwise records the new directory. -/
def mkdirP (w : World) (p : String) : Except String World :=
  if w.dirs p then .ok w
  else
    match w.mkdirFail p with
    | some e => .error e
    | none => .ok { w with dirs := fun q => q = p || w.dirs q }

/-- `CodexCLI.resolve_sandbox`: pick the override or the settings default (Python
truthiness), fail when neither is set, canonicalise, create the directory,
then require it to be a directory. Returns the path and the updated world. -/
def resolve_sandbox (w : World) (sandbox_override : Option String)
    (settings : CodexSettings) : Except CodexError (String × World) :=
  match pyOrOpt sandbox_override settings.sandbox with
  | none =>
      .error (.sandboxError
        "Sandbox directory is not configured. Use --sandbox or AMPLIFIER_CODEX_SANDBOX.")
  | some src =>
      let sandbox_path := w.canon src
      match mkdirP w sandbox_path with
      | .error e =>
          .error (.sandboxError
            ("Unable to create sandbox directory '" ++ sandbox_path ++ "': " ++ e))
      | .ok w2 =>
          if w2.dirs sandbox_path then .ok (sandbox_path, w2)
          else .error (.sandboxError ("Sandbox path '" ++ sandbox_path ++ "' is not a directory"))

/-- The candidate list built at the top of `CodexCLI.resolve_binary`: the
constructor override, then `settings.bin` when new, then `"codex"` when new. -/
def candidatesOf (cli : CodexCLI) : List String :=
  let c0 : List String := []
  let c1 := match cli.binary_override with
    | some s => if s ≠ "" then c0 ++ [s] else c0
    | none => c0
  let c2 := match cli.settings.bin with
    | some s => if s ≠ "" ∧ s ∉ c1 then c1 ++ [s] else c1
    | none => c1
  if "codex" ∉ c2 then c2 ++ ["codex"] else c2

/-- `CodexCLI._verify_binary`: spawn `[binary, "--version"]`; success returns the
binary, `FileNotFoundError` and `CalledProcessError` raise `CodexUnavailableError`. -/
def verify_binary (w : World) (binary : String) : Except CodexError String × List Event :=
  (match w.verRun binary with
   | .ok => .ok binary
   | .launchFail => .error (.unavailable "Codex binary not found")
   | .nonzeroExit out err =>
       .error (.unavailable
         ("Codex binary at '" ++ binary ++ "' is not executable: " ++
           pyStrip (pyOrS err (pyOrS out "")))),
   [Event.spawnedVerify binary])

/-- `CodexCLI._resolve_single_candidate`: absolute executable paths are verified
directly, otherwise the PATH search result is verified; an unlocatable candidate
yields `none` (no event). A verification failure propagates as an error. -/
def resolveSingleCandidate (w : World) (candidate : String) :
    Except CodexError (Option String) × List Event :=
  if isAbsPath candidate && w.xok candidate then
    let (r, ev) := verify_binary w candidate
    (r.map some, ev)
  else
    match w.which candidate with
    | some resolved =>
        let (r, ev) := verify_binary w resolved
        (r.map some, ev)
    | none => (.ok none, [])

/-- The candidate loop of `CodexCLI.resolve_binary`, including the final
`CodexUnavailableError` when the list is exhausted. -/
def resolveCandidates (w : World) : List String → Except CodexError String × List Event
  | [] =>
      (.error (.unavailable
        "Unable to locate the Codex CLI. Set AMPLIFIER_CODEX_BIN or use --codex-bin."), [])
  | candidate :: rest =>
      match resolveSingleCandidate w candidate with
      | (.error e, ev) => (.error e, ev)
      | (.ok (some b), ev) => (.ok b, ev)
      | (.ok none, ev) =>
          let (r, ev2) := resolveCandidates w rest
          (r, ev ++ ev2)

/-- The cache-miss path of `resolve_binary`: run the candidate loop and, on
success, store the result in `_cached_binary`. -/
def resolveFresh (w : World) (cli : CodexCLI) :
    Except CodexError String × CodexCLI × List Event :=
  match resolveCandidates w (candidatesOf cli) with
  | (.ok b, ev) => (.ok b, { cli with cached_binary := some b }, ev)
  | (.error e, ev) => (.error e, cli, ev)

/-- `CodexCLI.resolve_binary`: return the cached binary when truthy, otherwise
resolve afresh. Returns the result, the updated instance state, and the events. -/
def resolve_binary (w : World) (cli : CodexCLI) :
    Except CodexError String × CodexCLI × List Event :=
  match cli.cached_binary with
  | some b => if b ≠ "" then (.ok b, cli, []) else resolveFresh w cli
  | none => resolveFresh w cli

/-- The post-confirmation tail of `CodexCLI.execute`: the dry-run early return,
then the spawn with its three outcomes (completion with zero/non-zero exit,
`TimeoutExpired`, `FileNotFoundError`). -/
def runPhase (w2 : World) (command : List String) (dry_run : Bool)
    (effective_timeout : Option Int) : Except CodexError CodexRunResult × List Event :=
  if dry_run then
    (.ok { command := command, returncode := none, stdout := "", stderr := "", dry_run := true },
     [])
  else
    match w2.run command effective_timeout with
    | .completed rc out err =>
        if rc ≠ 0 then
          (.error (.executionError command rc out err none), [Event.spawnedRun command])
        else
          (.ok { command := command, returncode := some rc, stdout := out, stderr := err,
                 dry_run := false },
           [Event.spawnedRun command])
    | .timeoutExpired outP errP =>
        (.error (.executionError command (-1) (outP.getD "")
          ((errP.getD "") ++
            (match effective_timeout with
             | some t => "\nTimed out after " ++ toString t ++ "s"
             | none => ""))
          (some "Codex execution timed out")),
         [Event.spawnedRun command])
    | .launchFail =>
        (.error (.unavailable "Codex binary disappeared during execution"),
         [Event.spawnedRun command])

/-- `if context:` — the conditionally appended `["--context", context]` block. -/
def contextArgs : Option String → List String
  | some s => if s ≠ "" then ["--context", s] else []
  | none => []

/-- `if dry_run:` — the conditionally appended `["--dry-run"]` block. -/
def dryRunArgs (dry_run : Bool) : List String :=
  if dry_run then ["--dry-run"] else []

/-- `effective_timeout = timeout if timeout is not None else self.settings.default_timeout`. -/
def effectiveTimeout (timeout : Option Int) (settings : CodexSettings) : Option Int :=
  match timeout with
  | some t => some t
  | none => settings.default_timeout

/-- `if effective_timeout is not None:` — the conditionally appended
`["--timeout", str(effective_timeout)]` block. -/
def timeoutArgs : Option Int → List String
  | some t => ["--timeout", toString t]
  | none => []

/-- The command construction of `execute` (lines 174-182). -/
def buildCommand (binary effective_mode sandbox_path : String) (context : Option String)
    (dry_run : Bool) (effective_timeout : Option Int) : List String :=
  [binary, "run", "--mode", effective_mode, "--sandbox", sandbox_path]
    ++ contextArgs context ++ dryRunArgs dry_run ++ timeoutArgs effective_timeout

/-- The confirmation prompt of `execute`: mode-specific wording, then the
shell-quoted command, then `Continue?`. -/
def promptOf (effective_mode : String) (command : List String) : String :=
  (if effective_mode = "auto" then "Codex will run in AUTO mode. Proceed?"
   else "Execute Codex in SUGGEST mode?")
  ++ "\n" ++ command_display command ++ "\nContinue?"

/-- `CodexCLI.execute`: resolve the binary and sandbox, validate the effective
mode, build the command, run the confirmation gate unless pre-approved, then
hand off to `runPhase` (dry-run early return or spawn). -/
def execute (w : World) (cli : CodexCLI) (mode context sandbox : Option String)
    (dry_run approve : Bool) (timeout : Option Int) :
    Except CodexError CodexRunResult × List Event :=
  match resolve_binary w cli with
  | (.error e, _, ev1) => (.error e, ev1)
  | (.ok binary, _, ev1) =>
      match resolve_sandbox w sandbox cli.settings with
      | .error e => (.error e, ev1)
      | .ok (sandbox_path, w2) =>
          let effective_mode := pyOrOptS mode (pyOrS cli.settings.default_mode "suggest")
          if effective_mode ∉ (["suggest", "auto"] : List String) then
            (.error (.executionError [binary] (-1) "" ""
              (some ("Unsupported Codex mode '" ++ effective_mode ++ "'."))), ev1)
          else
            let effective_timeout := effectiveTimeout timeout cli.settings
            let command :=
              buildCommand binary effective_mode sandbox_path context dry_run effective_timeout
            if approve then
              let (r, ev) := runPhase w2 command dry_run effective_timeout
              (r, ev1 ++ ev)
            else
              let prompt := promptOf effective_mode command
              if w2.confirmAnswer prompt then
                let (r, ev) := runPhase w2 command dry_run effective_timeout
                (r, ev1 ++ [Event.confirmed prompt false] ++ ev)
              else
                (.error (.cancelled "Codex execution cancelled by user"),
                 ev1 ++ [Event.confirmed prompt false])

/-- A world for the C1 counterexample: the override `/bad` is an executable
whose self-check exits non-zero, while `codex` is on PATH and verifies. -/
def c1World : World :=
  { xok := fun s => s = "/bad"
    which := fun c => if c = "codex" then some "/usr/bin/codex" else none
    verRun := fun s => if s = "/bad" then .nonzeroExit "" "boom" else .ok
    canon := fun s => s
    dirs := fun _ => false
    mkdirFail := fun _ => none
    confirmAnswer := fun _ => false
    run := fun _ _ => .completed 0 "" "" }

def c1CLI : CodexCLI :=
  { settings := { bin := none, sandbox := some "/tmp/sbx", default_mode := "suggest",
                  default_timeout := none }
    binary_override := some "/bad"
    cached_binary := none }

/-- A second world for the C1 witness: `codex` is located via the search path
and its self-check exits non-zero, while `/van` is an absolute executable whose
self-check fails to launch. -/
def c1WorldB : World :=
  { xok := fun s => s = "/van"
    which := fun c => if c = "codex" then some "/usr/bin/codex" else none
    verRun := fun s => if s = "/usr/bin/codex" then .nonzeroExit "oops" "" else .launchFail
    canon := fun s => s
    dirs := fun _ => false
    mkdirFail := fun _ => none
    confirmAnswer := fun _ => false
    run := fun _ _ => .completed 0 "" "" }

/-- A base concrete world for witnesses: `/opt/codex` is an absolute executable
whose self-check succeeds, the sandbox root is creatable, the operator declines
prompts, and spawned runs exit cleanly. -/
def baseWorld : World :=
  { xok := fun s => s = "/opt/codex"
    which := fun _ => none
    verRun := fun _ => .ok
    canon := fun s => s
    dirs := fun _ => false
    mkdirFail := fun _ => none
    confirmAnswer := fun _ => false
    run := fun _ _ => .completed 0 "" "" }

def baseSettings : CodexSettings :=
  { bin := none, sandbox := some "/tmp/sbx", default_mode := "suggest", default_timeout := none }

def baseCLI : CodexCLI :=
  { settings := baseSettings, binary_override := some "/opt/codex", cached_binary := none }

def baseCLICached : CodexCLI := { baseCLI with cached_binary := some "/opt/codex" }

def baseW2 : World := { baseWorld with dirs := fun q => q = "/tmp/sbx" || baseWorld.dirs q }

def wit2Result : CodexRunResult :=
  { command := ["/opt/codex", "run", "--mode", "auto", "--sandbox", "/tmp/sbx",
                "--context", "ctx", "--dry-run", "--timeout", "30"],
    returncode := none, stdout := "", stderr := "", dry_run := true }

def wit4Result : CodexRunResult :=
  { command := ["/opt/codex", "run", "--mode", "suggest", "--sandbox", "/tmp/sbx", "--dry-run"],
    returncode := none, stdout := "", stderr := "", dry_run := true }

def wit5Prompt : String :=
  "Execute Codex in SUGGEST mode?\n/opt/codex run --mode suggest --sandbox /tmp/sbx\nContinue?"

def c6World : World := { baseWorld with run := fun _ _ => .completed 2 "out" "err" }

def c6W2 : World := { c6World with dirs := fun q => q = "/tmp/sbx" || c6World.dirs q }

def c6CLI : CodexCLI :=
  { settings := baseSettings, binary_override := some "/opt/codex", cached_binary := none }

def c6CLICached : CodexCLI := { c6CLI with cached_binary := some "/opt/codex" }

def c7World : World := { baseWorld with run := fun _ _ => .timeoutExpired (some "") (some "") }

def c7W2 : World := { c7World with dirs := fun q => q = "/tmp/sbx" || c7World.dirs q }

def c7CLI : CodexCLI :=
  { settings := baseSettings, binary_override := some "/opt/codex", cached_binary := none }

def c7CLICached : CodexCLI := { c7CLI with cached_binary := some "/opt/codex" }

def c8World : World :=
  { baseWorld with
      xok := fun _ => false
      which := fun c => if c = "codex" then some "/usr/bin/codex" else none }

def c8CLI : CodexCLI :=
  { settings := baseSettings, binary_override := none, cached_binary := none }

def c8CLICached : CodexCLI := { c8CLI with cached_binary := some "/usr/bin/codex" }

def c9Settings : CodexSettings :=
  { bin := none, sandbox := some "/srv/other", default_mode := "suggest", default_timeout := none }

def c9World : World := baseWorld

def c9W2 : World := { c9World with dirs := fun q => q = "/tmp/sbx" || c9World.dirs q }

/-- Every event emitted by `_resolve_single_candidate` is a self-check spawn. -/
theorem resolveSingleCandidate_events (w : World) (c : String) :
    ∀ e ∈ (resolveSingleCandidate w c).2, ∃ b, e = Event.spawnedVerify b := by
  unfold resolveSingleCandidate verify_binary
  split
  · intro e he
    simp at he
    exact ⟨c, he⟩
  · split
    · rename_i r hr
      intro e he
      simp at he
      exact ⟨r, he⟩
    · intro e he
      simp at he

/-- Every event emitted by the candidate loop is a self-check spawn. -/
theorem resolveCandidates_events (w : World) (cands : List String) :
    ∀ e ∈ (resolveCandidates w cands).2, ∃ b, e = Event.spawnedVerify b := by
  induction cands with
  | nil => intro e he; simp [resolveCandidates] at he
  | cons c rest ih =>
    intro e he
    unfold resolveCandidates at he
    rcases hsc : resolveSingleCandidate w c with ⟨r, ev⟩
    have hev := resolveSingleCandidate_events w c
    rw [hsc] at he hev
    match r with
    | .error e0 =>
      simp at he
      exact hev e he
    | .ok (some b) =>
      simp at he
      exact hev e he
    | .ok none =>
      simp at he
      rcases he with h | h
      · exact hev e h
      · exact ih e h

/-- Every event emitted by `resolve_binary` is a self-check spawn. -/
theorem resolve_binary_events (w : World) (cli : CodexCLI) :
    ∀ e ∈ (resolve_binary w cli).2.2, ∃ b, e = Event.spawnedVerify b := by
  have hfresh : ∀ e ∈ (resolveFresh w cli).2.2, ∃ b, e = Event.spawnedVerify b := by
    unfold resolveFresh
    have h := resolveCandidates_events w (candidatesOf cli)
    rcases hrc : resolveCandidates w (candidatesOf cli) with ⟨r, ev⟩
    rw [hrc] at h
    match r with
    | .ok b2 => simpa using h
    | .error e0 => simpa using h
  unfold resolve_binary
  match cli.cached_binary with
  | none => exact hfresh
  | some b =>
    by_cases hb : b = ""
    · simpa [hb] using hfresh
    · simp [hb]

/-- The binary-resolution phase never spawns the built command. -/
theorem resolve_binary_no_run (w : World) (cli : CodexCLI) (c : List String) :
    Event.spawnedRun c ∉ (resolve_binary w cli).2.2 := by
  intro hmem
  rcases resolve_binary_events w cli _ hmem with ⟨b, hb⟩
  cases hb

/-- The binary-resolution phase never prompts for confirmation. -/
theorem resolve_binary_no_confirm (w : World) (cli : CodexCLI) (p : String) (d : Bool) :
    Event.confirmed p d ∉ (resolve_binary w cli).2.2 := by
  intro hmem
  rcases resolve_binary_events w cli _ hmem with ⟨b, hb⟩
  cases hb

/-- Given successful binary and sandbox resolution and a valid effective mode,
`execute` reduces to the confirmation gate around `runPhase`. -/
theorem execute_gate (w : World) (cli : CodexCLI) (mode context sandbox : Option String)
    (dry_run approve : Bool) (timeout : Option Int) (b : String) (cli2 : CodexCLI)
    (ev1 : List Event) (sp : String) (w2 : World) (em : String)
    (h1 : resolve_binary w cli = (.ok b, cli2, ev1))
    (h2 : resolve_sandbox w sandbox cli.settings = .ok (sp, w2))
    (hem : em = pyOrOptS mode (pyOrS cli.settings.default_mode "suggest"))
    (hm : em ∈ (["suggest", "auto"] : List String)) :
    execute w cli mode context sandbox dry_run approve timeout =
      (let effective_timeout := effectiveTimeout timeout cli.settings
       let command := buildCommand b em sp context dry_run effective_timeout
       if approve then
         ((runPhase w2 command dry_run effective_timeout).1,
          ev1 ++ (runPhase w2 command dry_run effective_timeout).2)
       else
         let prompt := promptOf em command
         if w2.confirmAnswer prompt then
           ((runPhase w2 command dry_run effective_timeout).1,
            ev1 ++ [Event.confirmed prompt false] ++ (runPhase w2 command dry_run effective_timeout).2)
         else
           (.error (.cancelled "Codex execution cancelled by user"),
            ev1 ++ [Event.confirmed prompt false])) := by
  unfold execute
  rw [h1]
  dsimp only
  rw [h2]
  dsimp only
  rw [← hem]
  rw [if_neg (not_not_intro hm)]

/-- The dry-run early return of `execute` (after the gate): fixed empty result,
no spawn. -/
theorem runPhase_dry (w2 : World) (c : List String) (t : Option Int) :
    runPhase w2 c true t =
      (.ok { command := c, returncode := none, stdout := "", stderr := "",
             dry_run := true }, []) := rfl

/-- A successful `runPhase` carries the built command, and its `dry_run` flag
holds exactly when its `returncode` is absent. -/
theorem runPhase_ok_spec (w2 : World) (c : List String) (d : Bool) (t : Option Int)
    (r : CodexRunResult) (ev : List Event) (h : runPhase w2 c d t = (.ok r, ev)) :
    r.command = c ∧ (r.dry_run = true ↔ r.returncode = none) := by
  unfold runPhase at h
  split at h
  · rw [Prod.mk.injEq] at h
    obtain ⟨hr, _⟩ := h
    injection hr with hr
    subst hr
    simp
  · split at h
    · split at h
      · simp at h
      · rw [Prod.mk.injEq] at h
        obtain ⟨hr, _⟩ := h
        injection hr with hr
        subst hr
        simp
    · simp at h
    · simp at h

/-- The trace of `runPhase`: nothing on a dry run, exactly one spawn otherwise. -/
theorem runPhase_events (w2 : World) (c : List String) (d : Bool) (t : Option Int) :
    (runPhase w2 c d t).2 = if d then [] else [Event.spawnedRun c] := by
  unfold runPhase
  split
  · simp_all
  · rename_i hd
    simp only [Bool.not_eq_true] at hd
    subst hd
    rcases w2.run c t with ⟨rc, out, err⟩ | ⟨oP, eP⟩ | _
    · dsimp only
      split <;> simp
    · simp
    · simp

/-- With both resolutions succeeding, an invalid effective mode makes `execute`
fail before the gate with the mode-naming `CodexExecutionError`. -/
theorem execute_unsupported_mode (w : World) (cli : CodexCLI)
    (mode context sandbox : Option String) (dry_run approve : Bool) (timeout : Option Int)
    (b : String) (cli2 : CodexCLI) (ev1 : List Event) (sp : String) (w2 : World) (em : String)
    (h1 : resolve_binary w cli = (.ok b, cli2, ev1))
    (h2 : resolve_sandbox w sandbox cli.settings = .ok (sp, w2))
    (hem : em = pyOrOptS mode (pyOrS cli.settings.default_mode "suggest"))
    (hm : em ∉ (["suggest", "auto"] : List String)) :
    execute w cli mode context sandbox dry_run approve timeout =
      (.error (.executionError [b] (-1) "" ""
        (some ("Unsupported Codex mode '" ++ em ++ "'."))), ev1) := by
  unfold execute
  rw [h1]
  dsimp only
  rw [h2]
  dsimp only
  rw [← hem, if_pos hm]

/-- C3: with binary and sandbox resolution succeeding, an effective mode outside
the set of supported modes makes `execute` fail with an `ExecutionError` whose
return code is `-1` and whose message names the bad mode, and no run process is
spawned (the trace holds only resolution self-checks). -/
theorem c3_invalid_mode_rejected (w : World) (cli : CodexCLI)
    (mode context sandbox : Option String) (dry_run approve : Bool) (timeout : Option Int)
    (b : String) (cli2 : CodexCLI) (ev1 : List Event) (sp : String) (w2 : World) (em : String)
    (h1 : resolve_binary w cli = (.ok b, cli2, ev1))
    (h2 : resolve_sandbox w sandbox cli.settings = .ok (sp, w2))
    (hem : em = pyOrOptS mode (pyOrS cli.settings.default_mode "suggest"))
    (hm : em ∉ (["suggest", "auto"] : List String)) :
    execute w cli mode context sandbox dry_run approve timeout =
      (.error (.executionError [b] (-1) "" ""
        (some ("Unsupported Codex mode '" ++ em ++ "'."))), ev1)
    ∧ (∀ c, Event.spawnedRun c ∉ ev1) := by
  refine ⟨execute_unsupported_mode w cli mode context sandbox dry_run approve timeout
    b cli2 ev1 sp w2 em h1 h2 hem hm, ?_⟩
  intro c
  have hnr := resolve_binary_no_run w cli c
  rw [h1] at hnr
  exact hnr

/-- C2: a successful `execute` returns a result whose command is exactly the
binary, the fixed `run --mode … --sandbox …` block, then `--context` iff a
non-empty context was given, then `--dry-run` iff requested, then `--timeout`
iff an effective timeout exists — and its first element is the resolved binary. -/
theorem c2_command_shape (w : World) (cli : CodexCLI)
    (mode context sandbox : Option String) (dry_run approve : Bool) (timeout : Option Int)
    (b : String) (cli2 : CodexCLI) (ev1 : List Event) (sp : String) (w2 : World) (em : String)
    (r : CodexRunResult) (evs : List Event)
    (h1 : resolve_binary w cli = (.ok b, cli2, ev1))
    (h2 : resolve_sandbox w sandbox cli.settings = .ok (sp, w2))
    (hem : em = pyOrOptS mode (pyOrS cli.settings.default_mode "suggest"))
    (h : execute w cli mode context sandbox dry_run approve timeout = (.ok r, evs)) :
    r.command =
      [b, "run", "--mode", em, "--sandbox", sp]
      ++ (match context with
          | some s => if s ≠ "" then ["--context", s] else []
          | none => [])
      ++ (if dry_run then ["--dry-run"] else [])
      ++ (match effectiveTimeout timeout cli.settings with
          | some t => ["--timeout", toString t]
          | none => [])
    ∧ r.command.head? = some b := by
  by_cases hm : em ∈ (["suggest", "auto"] : List String)
  case neg =>
    rw [execute_unsupported_mode w cli mode context sandbox dry_run approve timeout
      b cli2 ev1 sp w2 em h1 h2 hem hm] at h
    simp at h
  case pos =>
    rw [execute_gate w cli mode context sandbox dry_run approve timeout
      b cli2 ev1 sp w2 em h1 h2 hem hm] at h
    dsimp only at h
    have hcmd : r.command = buildCommand b em sp context dry_run (effectiveTimeout timeout cli.settings) := by
      rcases hrp : runPhase w2 (buildCommand b em sp context dry_run (effectiveTimeout timeout cli.settings))
          dry_run (effectiveTimeout timeout cli.settings) with ⟨rr, ev⟩
      rw [hrp] at h
      split at h
      · rw [Prod.mk.injEq] at h
        obtain ⟨hr, _⟩ := h
        subst hr
        exact (runPhase_ok_spec _ _ _ _ _ _ hrp).1
      · split at h
        · rw [Prod.mk.injEq] at h
          obtain ⟨hr, _⟩ := h
          subst hr
          exact (runPhase_ok_spec _ _ _ _ _ _ hrp).1
        · simp at h
    constructor
    · rw [hcmd]
      cases context <;> rcases htt : effectiveTimeout timeout cli.settings with _ | t <;>
        simp [buildCommand, contextArgs, dryRunArgs, timeoutArgs, htt]
    · rw [hcmd]
      rfl

/-- Inversion for successful `execute`: resolution succeeded, the mode was
valid, `runPhase` produced the result, and the trace is resolution events,
possibly one confirmation, then the run-phase events. -/
theorem execute_ok_elim (w : World) (cli : CodexCLI) (mode context sandbox : Option String)
    (dry_run approve : Bool) (timeout : Option Int) (r : CodexRunResult) (evs : List Event)
    (h : execute w cli mode context sandbox dry_run approve timeout = (.ok r, evs)) :
    ∃ b cli2 ev1 sp w2 evrp,
      resolve_binary w cli = (.ok b, cli2, ev1) ∧
      resolve_sandbox w sandbox cli.settings = .ok (sp, w2) ∧
      runPhase w2
        (buildCommand b (pyOrOptS mode (pyOrS cli.settings.default_mode "suggest")) sp context
          dry_run (effectiveTimeout timeout cli.settings))
        dry_run (effectiveTimeout timeout cli.settings) = (.ok r, evrp) ∧
      (evs = ev1 ++ evrp ∨ ∃ p, evs = ev1 ++ [Event.confirmed p false] ++ evrp) := by
  rcases hrb : resolve_binary w cli with ⟨rb, cli2, ev1⟩
  match rb, hrb with
  | .error e, hrb =>
    unfold execute at h
    rw [hrb] at h
    simp at h
  | .ok b, hrb =>
    rcases hrs : resolve_sandbox w sandbox cli.settings with e | ⟨sp, w2⟩
    · unfold execute at h
      rw [hrb] at h
      dsimp only at h
      rw [hrs] at h
      simp at h
    · by_cases hm : pyOrOptS mode (pyOrS cli.settings.default_mode "suggest") ∈
        (["suggest", "auto"] : List String)
      case neg =>
        rw [execute_unsupported_mode w cli mode context sandbox dry_run approve timeout
          b cli2 ev1 sp w2 _ hrb hrs rfl hm] at h
        simp at h
      case pos =>
        rw [execute_gate w cli mode context sandbox dry_run approve timeout
          b cli2 ev1 sp w2 _ hrb hrs rfl hm] at h
        dsimp only at h
        refine ⟨b, cli2, ev1, sp, w2, ?_⟩
        rcases hrp : runPhase w2
            (buildCommand b (pyOrOptS mode (pyOrS cli.settings.default_mode "suggest")) sp context
              dry_run (effectiveTimeout timeout cli.settings))
            dry_run (effectiveTimeout timeout cli.settings) with ⟨rr, evrp⟩
        rw [hrp] at h
        split at h
        · rw [Prod.mk.injEq] at h
          obtain ⟨hr, hev⟩ := h
          subst hr
          exact ⟨evrp, rfl, rfl, rfl, Or.inl hev.symm⟩
        · split at h
          · rw [Prod.mk.injEq] at h
            obtain ⟨hr, hev⟩ := h
            subst hr
            exact ⟨evrp, rfl, rfl, rfl, Or.inr ⟨_, hev.symm⟩⟩
          · simp at h

/-- C4: a dry run that reaches the result returns immediately with no return
code, empty streams, the `dry_run` marker, and a trace without any run spawn;
and in every result produced by `execute`, `dry_run` holds exactly when
`returncode` is absent. -/
theorem c4_dry_run_no_spawn (w : World) (cli : CodexCLI) (mode context sandbox : Option String)
    (approve : Bool) (timeout : Option Int) :
    (∀ r evs, execute w cli mode context sandbox true approve timeout = (.ok r, evs) →
      r.returncode = none ∧ r.stdout = "" ∧ r.stderr = "" ∧ r.dry_run = true ∧
      ∀ c, Event.spawnedRun c ∉ evs)
    ∧ (∀ dr r evs, execute w cli mode context sandbox dr approve timeout = (.ok r, evs) →
      (r.dry_run = true ↔ r.returncode = none)) := by
  constructor
  · intro r evs h
    obtain ⟨b, cli2, ev1, sp, w2, evrp, hrb, hrs, hrp, hevs⟩ :=
      execute_ok_elim w cli mode context sandbox true approve timeout r evs h
    rw [runPhase_dry] at hrp
    rw [Prod.mk.injEq] at hrp
    obtain ⟨hr, hev⟩ := hrp
    injection hr with hr
    have hnr : ∀ c, Event.spawnedRun c ∉ ev1 := by
      intro c
      have := resolve_binary_no_run w cli c
      rw [hrb] at this
      exact this
    refine ⟨by rw [← hr], by rw [← hr], by rw [← hr], by rw [← hr], ?_⟩
    intro c hc
    rcases hevs with hevs | ⟨p, hevs⟩
    · subst hevs
      rw [← hev, List.append_nil] at hc
      exact hnr c hc
    · subst hevs
      rw [← hev, List.append_nil] at hc
      rcases List.mem_append.mp hc with hc2 | hc2
      · exact hnr c hc2
      · simp at hc2
  · intro dr r evs h
    obtain ⟨b, cli2, ev1, sp, w2, evrp, hrb, hrs, hrp, hevs⟩ :=
      execute_ok_elim w cli mode context sandbox dr approve timeout r evs h
    exact (runPhase_ok_spec _ _ _ _ _ _ hrp).2

/-- C5: the confirmation gate is skipped exactly when the run is pre-approved;
otherwise `execute` prompts with the mode-specific wording plus the
shell-quoted command and the default answer `false`, and a negative answer
yields `Cancelled` with no run process spawned. -/
theorem c5_confirmation_gate (w : World) (cli : CodexCLI) (mode context sandbox : Option String)
    (dry_run : Bool) (timeout : Option Int) (b : String) (cli2 : CodexCLI) (ev1 : List Event)
    (sp : String) (w2 : World) (em : String) (command : List String) (prompt : String)
    (h1 : resolve_binary w cli = (.ok b, cli2, ev1))
    (h2 : resolve_sandbox w sandbox cli.settings = .ok (sp, w2))
    (hem : em = pyOrOptS mode (pyOrS cli.settings.default_mode "suggest"))
    (hm : em ∈ (["suggest", "auto"] : List String))
    (hcm : command = buildCommand b em sp context dry_run (effectiveTimeout timeout cli.settings))
    (hpr : prompt = (if em = "auto" then "Codex will run in AUTO mode. Proceed?"
                     else "Execute Codex in SUGGEST mode?")
                    ++ "\n" ++ command_display command ++ "\nContinue?") :
    (∀ res evs, execute w cli mode context sandbox dry_run true timeout = (res, evs) →
      ∀ p d, Event.confirmed p d ∉ evs)
    ∧ (∀ res evs, execute w cli mode context sandbox dry_run false timeout = (res, evs) →
      Event.confirmed prompt false ∈ evs)
    ∧ (w2.confirmAnswer prompt = false →
      execute w cli mode context sandbox dry_run false timeout =
        (.error (.cancelled "Codex execution cancelled by user"),
         ev1 ++ [Event.confirmed prompt false])
      ∧ ∀ c, Event.spawnedRun c ∉ ev1 ++ [Event.confirmed prompt false]) := by
  have hg : ∀ approve, execute w cli mode context sandbox dry_run approve timeout =
      (let effective_timeout := effectiveTimeout timeout cli.settings
       let command2 := buildCommand b em sp context dry_run effective_timeout
       if approve then
         ((runPhase w2 command2 dry_run effective_timeout).1,
          ev1 ++ (runPhase w2 command2 dry_run effective_timeout).2)
       else
         let prompt2 := promptOf em command2
         if w2.confirmAnswer prompt2 then
           ((runPhase w2 command2 dry_run effective_timeout).1,
            ev1 ++ [Event.confirmed prompt2 false] ++ (runPhase w2 command2 dry_run effective_timeout).2)
         else
           (.error (.cancelled "Codex execution cancelled by user"),
            ev1 ++ [Event.confirmed prompt2 false])) := fun approve =>
    execute_gate w cli mode context sandbox dry_run approve timeout b cli2 ev1 sp w2 em h1 h2 hem hm
  have hnc : ∀ p d, Event.confirmed p d ∉ ev1 := by
    intro p d
    have := resolve_binary_no_confirm w cli p d
    rw [h1] at this
    exact this
  have hnr1 : ∀ c, Event.spawnedRun c ∉ ev1 := by
    intro c
    have := resolve_binary_no_run w cli c
    rw [h1] at this
    exact this
  have hprom : prompt = promptOf em (buildCommand b em sp context dry_run
      (effectiveTimeout timeout cli.settings)) := by
    rw [hpr, hcm]
    rfl
  refine ⟨?_, ?_, ?_⟩
  · intro res evs h p d hmem
    rw [hg true] at h
    dsimp only at h
    rw [Prod.mk.injEq] at h
    obtain ⟨_, hev⟩ := h
    rw [← hev] at hmem
    rcases List.mem_append.mp hmem with hc | hc
    · exact hnc p d hc
    · rw [runPhase_events] at hc
      split at hc <;> simp at hc
  · intro res evs h
    rw [hg false] at h
    dsimp only at h
    rw [← hprom] at h
    simp only [Bool.false_eq_true, if_false] at h
    split at h
    · rw [Prod.mk.injEq] at h
      obtain ⟨_, hev⟩ := h
      rw [← hev]
      simp
    · rw [Prod.mk.injEq] at h
      obtain ⟨_, hev⟩ := h
      rw [← hev]
      simp
  · intro hans
    have h := hg false
    dsimp only at h
    rw [← hprom, hans] at h
    simp only [Bool.false_eq_true, if_false] at h
    refine ⟨h, ?_⟩
    intro c hmem
    rcases List.mem_append.mp hmem with hc | hc
    · exact hnr1 c hc
    · simp at hc

/-- When `execute` is not a dry run and the gate passes (pre-approved or the
operator answered yes), the result is `runPhase`'s outcome on the built command
and the trace gains the spawn events. -/
theorem execute_spawn (w : World) (cli : CodexCLI) (mode context sandbox : Option String)
    (approve : Bool) (timeout : Option Int) (b : String) (cli2 : CodexCLI) (ev1 : List Event)
    (sp : String) (w2 : World) (em : String) (command : List String) (effT : Option Int)
    (h1 : resolve_binary w cli = (.ok b, cli2, ev1))
    (h2 : resolve_sandbox w sandbox cli.settings = .ok (sp, w2))
    (hem : em = pyOrOptS mode (pyOrS cli.settings.default_mode "suggest"))
    (hm : em ∈ (["suggest", "auto"] : List String))
    (het : effT = effectiveTimeout timeout cli.settings)
    (hcm : command = buildCommand b em sp context false effT)
    (hgate : approve = true ∨ w2.confirmAnswer (promptOf em command) = true) :
    execute w cli mode context sandbox false approve timeout =
      ((runPhase w2 command false effT).1,
       ev1 ++ (if approve then [] else [Event.confirmed (promptOf em command) false])
           ++ (runPhase w2 command false effT).2) := by
  rw [execute_gate w cli mode context sandbox false approve timeout b cli2 ev1 sp w2 em h1 h2 hem hm]
  dsimp only
  rw [← het, ← hcm]
  by_cases ha : approve = true
  · subst ha
    simp
  · have ha2 : approve = false := by simpa using ha
    subst ha2
    have hans := hgate.resolve_left (by simp)
    rw [hans]
    simp

/-- C6: when the spawned process completes with a non-zero exit code, `execute`
fails with a `CodexExecutionError` carrying the full command, the real return
code, and the captured stdout and stderr, and with no message argument (so the
constructor falls back to its generic default rather than a synthetic
per-failure message). -/
theorem c6_nonzero_exit (w : World) (cli : CodexCLI) (mode context sandbox : Option String)
    (approve : Bool) (timeout : Option Int) (b : String) (cli2 : CodexCLI) (ev1 : List Event)
    (sp : String) (w2 : World) (em : String) (command : List String) (effT : Option Int)
    (rc : Int) (out err : String)
    (h1 : resolve_binary w cli = (.ok b, cli2, ev1))
    (h2 : resolve_sandbox w sandbox cli.settings = .ok (sp, w2))
    (hem : em = pyOrOptS mode (pyOrS cli.settings.default_mode "suggest"))
    (hm : em ∈ (["suggest", "auto"] : List String))
    (het : effT = effectiveTimeout timeout cli.settings)
    (hcm : command = buildCommand b em sp context false effT)
    (hgate : approve = true ∨ w2.confirmAnswer (promptOf em command) = true)
    (hrun : w2.run command effT = .completed rc out err)
    (hrc : rc ≠ 0) :
    execute w cli mode context sandbox false approve timeout =
      (.error (.executionError command rc out err none),
       ev1 ++ (if approve then [] else [Event.confirmed (promptOf em command) false])
           ++ [Event.spawnedRun command])
    ∧ execErrorMessage none = "Codex execution failed" := by
  have hrp : runPhase w2 command false effT =
      (.error (.executionError command rc out err none), [Event.spawnedRun command]) := by
    unfold runPhase
    rw [if_neg (by simp)]
    rw [hrun]
    dsimp only
    rw [if_pos hrc]
  refine ⟨?_, rfl⟩
  rw [execute_spawn w cli mode context sandbox approve timeout b cli2 ev1 sp w2 em command effT
    h1 h2 hem hm het hcm hgate, hrp]

/-- C7 (amended): when the spawned process times out, `execute` fails with a
`CodexExecutionError` whose return code is `-1`, whose stdout is the captured
partial stream, whose stderr is the captured partial stream with the
`Timed out after Ns` note appended (this suffix, not the message, carries the
duration), and whose message argument is the fixed `Codex execution timed out`. -/
theorem c7_timeout_amended (w : World) (cli : CodexCLI) (mode context sandbox : Option String)
    (approve : Bool) (timeout : Option Int) (b : String) (cli2 : CodexCLI) (ev1 : List Event)
    (sp : String) (w2 : World) (em : String) (command : List String) (effT : Option Int)
    (outP errP : Option String)
    (h1 : resolve_binary w cli = (.ok b, cli2, ev1))
    (h2 : resolve_sandbox w sandbox cli.settings = .ok (sp, w2))
    (hem : em = pyOrOptS mode (pyOrS cli.settings.default_mode "suggest"))
    (hm : em ∈ (["suggest", "auto"] : List String))
    (het : effT = effectiveTimeout timeout cli.settings)
    (hcm : command = buildCommand b em sp context false effT)
    (hgate : approve = true ∨ w2.confirmAnswer (promptOf em command) = true)
    (hrun : w2.run command effT = .timeoutExpired outP errP) :
    execute w cli mode context sandbox false approve timeout =
      (.error (.executionError command (-1) (outP.getD "")
        ((errP.getD "") ++
          (match effT with
           | some t => "\nTimed out after " ++ toString t ++ "s"
           | none => ""))
        (some "Codex execution timed out")),
       ev1 ++ (if approve then [] else [Event.confirmed (promptOf em command) false])
           ++ [Event.spawnedRun command])
    ∧ execErrorMessage (some "Codex execution timed out") = "Codex execution timed out" := by
  have hrp : runPhase w2 command false effT =
      (.error (.executionError command (-1) (outP.getD "")
        ((errP.getD "") ++
          (match effT with
           | some t => "\nTimed out after " ++ toString t ++ "s"
           | none => ""))
        (some "Codex execution timed out")), [Event.spawnedRun command]) := by
    unfold runPhase
    rw [if_neg (by simp)]
    rw [hrun]
    dsimp only
    rcases effT with _ | t
    · rfl
    · rfl
  refine ⟨?_, rfl⟩
  rw [execute_spawn w cli mode context sandbox approve timeout b cli2 ev1 sp w2 em command effT
    h1 h2 hem hm het hcm hgate, hrp]

/-- C1 counterexample: the later candidate `codex` resolves and passes
verification, yet `resolve_binary` fails with `Unavailable` because the first
candidate's failed self-check aborts resolution instead of being skipped. -/
theorem c1_counterexample :
    (resolveSingleCandidate c1World "codex").1 = .ok (some "/usr/bin/codex")
    ∧ c1World.verRun "/usr/bin/codex" = .ok
    ∧ resolve_binary c1World c1CLI =
        (.error (.unavailable "Codex binary at '/bad' is not executable: boom"),
         c1CLI, [Event.spawnedVerify "/bad"]) :=
  ⟨rfl, rfl, rfl⟩

/-- C1 (amended): a candidate that cannot be located (not an absolute
executable, not found on PATH) is skipped and resolution proceeds with the
remaining candidates; but once a candidate is located — directly as an absolute
executable path, or as some binary found on the search path — a self-check
that exits non-zero aborts resolution immediately with `Unavailable` naming
the located binary, and a self-check that fails to launch aborts resolution
immediately with the fixed `Unavailable` message `Codex binary not found`. -/
theorem c1_amended_candidate_handling (w : World) (candidate : String) (rest : List String)
    (b out err : String) :
    (¬(isAbsPath candidate = true ∧ w.xok candidate = true) → w.which candidate = none →
      resolveCandidates w (candidate :: rest) = resolveCandidates w rest)
    ∧ (((isAbsPath candidate = true ∧ w.xok candidate = true ∧ b = candidate) ∨
        (¬(isAbsPath candidate = true ∧ w.xok candidate = true) ∧ w.which candidate = some b)) →
      w.verRun b = .nonzeroExit out err →
      resolveCandidates w (candidate :: rest) =
        (.error (.unavailable ("Codex binary at '" ++ b ++ "' is not executable: " ++
          pyStrip (pyOrS err (pyOrS out "")))), [Event.spawnedVerify b]))
    ∧ (((isAbsPath candidate = true ∧ w.xok candidate = true ∧ b = candidate) ∨
        (¬(isAbsPath candidate = true ∧ w.xok candidate = true) ∧ w.which candidate = some b)) →
      w.verRun b = .launchFail →
      resolveCandidates w (candidate :: rest) =
        (.error (.unavailable "Codex binary not found"), [Event.spawnedVerify b])) := by
  refine ⟨?_, ?_, ?_⟩
  · intro hne hwhich
    have hsc : resolveSingleCandidate w candidate = (.ok none, []) := by
      unfold resolveSingleCandidate
      rw [if_neg]
      · rw [hwhich]
      · rw [Bool.and_eq_true]
        exact hne
    simp only [resolveCandidates, hsc]
    rcases resolveCandidates w rest with ⟨r, ev2⟩
    rfl
  · intro hloc hver
    have hsc : resolveSingleCandidate w candidate =
        (.error (.unavailable ("Codex binary at '" ++ b ++ "' is not executable: " ++
          pyStrip (pyOrS err (pyOrS out "")))), [Event.spawnedVerify b]) := by
      unfold resolveSingleCandidate verify_binary
      rcases hloc with ⟨habs, hxok, hb⟩ | ⟨hne, hwhich⟩
      · subst hb
        rw [if_pos (by rw [Bool.and_eq_true]; exact ⟨habs, hxok⟩), hver]
        rfl
      · rw [if_neg (by rw [Bool.and_eq_true]; exact hne), hwhich]
        dsimp only
        rw [hver]
        rfl
    simp only [resolveCandidates, hsc]
  · intro hloc hver
    have hsc : resolveSingleCandidate w candidate =
        (.error (.unavailable "Codex binary not found"), [Event.spawnedVerify b]) := by
      unfold resolveSingleCandidate verify_binary
      rcases hloc with ⟨habs, hxok, hb⟩ | ⟨hne, hwhich⟩
      · subst hb
        rw [if_pos (by rw [Bool.and_eq_true]; exact ⟨habs, hxok⟩), hver]
        rfl
      · rw [if_neg (by rw [Bool.and_eq_true]; exact hne), hwhich]
        dsimp only
        rw [hver]
        rfl
    simp only [resolveCandidates, hsc]

/-- C8: a successful `resolve_binary` stores its result in the instance cache,
and a second call on the resulting instance returns the same path with an empty
trace — no self-check process is spawned again. -/
theorem c8_binary_cache (w : World) (cli : CodexCLI) (b : String) (cli2 : CodexCLI)
    (ev1 : List Event)
    (h : resolve_binary w cli = (.ok b, cli2, ev1)) (hb : b ≠ "") :
    cli2.cached_binary = some b ∧ resolve_binary w cli2 = (.ok b, cli2, []) := by
  have hfresh : ∀ (h2 : resolveFresh w cli = (.ok b, cli2, ev1)), cli2.cached_binary = some b := by
    intro h2
    unfold resolveFresh at h2
    rcases hrc : resolveCandidates w (candidatesOf cli) with ⟨r, ev⟩
    rw [hrc] at h2
    match r, h2 with
    | .ok b2, h2 =>
      dsimp only at h2
      rw [Prod.mk.injEq, Prod.mk.injEq] at h2
      obtain ⟨hr, hcli, _⟩ := h2
      injection hr with hr
      rw [← hcli]
      dsimp only
      rw [hr]
    | .error e, h2 =>
      dsimp only at h2
      rw [Prod.mk.injEq] at h2
      exact absurd h2.1 (by simp)
  have hcache : cli2.cached_binary = some b := by
    unfold resolve_binary at h
    match hc : cli.cached_binary, h with
    | some b0, h =>
      dsimp only at h
      by_cases hb0 : b0 = ""
      · rw [if_neg (not_not_intro hb0)] at h
        exact hfresh h
      · rw [if_pos hb0] at h
        rw [Prod.mk.injEq, Prod.mk.injEq] at h
        obtain ⟨hr, hcli, _⟩ := h
        injection hr with hr
        rw [← hcli, hc, hr]
    | none, h =>
      exact hfresh h
  refine ⟨hcache, ?_⟩
  unfold resolve_binary
  rw [hcache]
  dsimp only
  rw [if_pos hb]

/-- `mkdirP` never changes the canonicalisation oracle. -/
theorem mkdirP_ok_canon (w : World) (p : String) (w2 : World) (h : mkdirP w p = .ok w2) :
    w2.canon = w.canon := by
  unfold mkdirP at h
  split at h
  · injection h with h
    subst h
    rfl
  · split at h
    · cases h
    · injection h with h
      subst h
      rfl

/-- C9: once `resolve_sandbox` succeeds, resolving again with the same override
against the updated world yields the same absolute path and does not error,
even though the directory now already exists. -/
theorem c9_sandbox_idempotent (w : World) (sandbox_override : Option String)
    (settings : CodexSettings) (p : String) (w2 : World)
    (h : resolve_sandbox w sandbox_override settings = .ok (p, w2)) :
    resolve_sandbox w2 sandbox_override settings = .ok (p, w2) := by
  unfold resolve_sandbox at h ⊢
  rcases hsrc : pyOrOpt sandbox_override settings.sandbox with _ | src
  · rw [hsrc] at h
    simp at h
  · rw [hsrc] at h
    dsimp only at h
    rcases hmk : mkdirP w (w.canon src) with e | wmk
    · rw [hmk] at h
      simp at h
    · rw [hmk] at h
      dsimp only at h
      split at h
      case isFalse => simp at h
      case isTrue hdir =>
        injection h with h
        rw [Prod.mk.injEq] at h
        obtain ⟨hp, hw⟩ := h
        subst hw
        dsimp only
        have hcanon := mkdirP_ok_canon w (w.canon src) wmk hmk
        rw [hcanon]
        have hmk2 : mkdirP wmk (w.canon src) = .ok wmk := by
          unfold mkdirP
          rw [if_pos hdir]
        rw [hmk2]
        dsimp only
        rw [if_pos hdir, hp]

/-- C10: an explicit empty-string mode is falsy in Python, so `execute` treats
it exactly like an absent mode: the effective mode falls through to the
settings default (else `suggest`) instead of the empty string being rejected. -/
theorem c10_empty_mode_falls_back (w : World) (cli : CodexCLI) (context sandbox : Option String)
    (dry_run approve : Bool) (timeout : Option Int) :
    pyOrOptS (some "") (pyOrS cli.settings.default_mode "suggest") =
      pyOrOptS none (pyOrS cli.settings.default_mode "suggest")
    ∧ execute w cli (some "") context sandbox dry_run approve timeout =
      execute w cli none context sandbox dry_run approve timeout := by
  constructor
  · rfl
  · unfold execute
    rcases resolve_binary w cli with ⟨rb, cli2, ev1⟩
    match rb with
    | .error e => rfl
    | .ok b =>
      dsimp only
      rcases resolve_sandbox w sandbox cli.settings with e | ⟨sp, w2⟩
      · rfl
      · rfl

/-- C1 witness: the amended behaviors at concrete inputs — an unlocatable
candidate is skipped; a located candidate with a non-zero self-check (whether
located as an absolute path or via the search path) aborts resolution naming
the located binary; a located candidate whose self-check fails to launch aborts
resolution with the fixed message. -/
theorem c1_amended_witness :
    resolveCandidates baseWorld ["missing"] = resolveCandidates baseWorld []
    ∧ resolveCandidates c1World ["/bad"] =
        (.error (.unavailable "Codex binary at '/bad' is not executable: boom"),
         [Event.spawnedVerify "/bad"])
    ∧ resolveCandidates c1WorldB ["codex"] =
        (.error (.unavailable "Codex binary at '/usr/bin/codex' is not executable: oops"),
         [Event.spawnedVerify "/usr/bin/codex"])
    ∧ resolveCandidates c1WorldB ["/van"] =
        (.error (.unavailable "Codex binary not found"), [Event.spawnedVerify "/van"]) :=
  ⟨(c1_amended_candidate_handling baseWorld "missing" [] "" "" "").1 (by decide) rfl,
   (c1_amended_candidate_handling c1World "/bad" [] "/bad" "" "boom").2.1
     (Or.inl ⟨by decide, by decide, rfl⟩) rfl,
   (c1_amended_candidate_handling c1WorldB "codex" [] "/usr/bin/codex" "oops" "").2.1
     (Or.inr ⟨by decide, rfl⟩) rfl,
   (c1_amended_candidate_handling c1WorldB "/van" [] "/van" "" "").2.2
     (Or.inl ⟨by decide, by decide, rfl⟩) rfl⟩

/-- C2 witness: the command shape at a concrete run with context, dry-run and timeout all present. -/
theorem c2_command_shape_witness :
    wit2Result.command = ["/opt/codex", "run", "--mode", "auto", "--sandbox", "/tmp/sbx",
      "--context", "ctx", "--dry-run", "--timeout", "30"]
    ∧ wit2Result.command.head? = some "/opt/codex" :=
  c2_command_shape baseWorld baseCLI (some "auto") (some "ctx") none true true (some 30)
    "/opt/codex" baseCLICached [Event.spawnedVerify "/opt/codex"] "/tmp/sbx" baseW2 "auto"
    wit2Result [Event.spawnedVerify "/opt/codex"] rfl rfl rfl rfl

/-- C3 witness: mode `bogus` is rejected with returncode -1 and a message naming it, before any run spawn. -/
theorem c3_invalid_mode_witness :
    execute baseWorld baseCLI (some "bogus") none none false true none =
      (.error (.executionError ["/opt/codex"] (-1) "" ""
        (some "Unsupported Codex mode 'bogus'.")), [Event.spawnedVerify "/opt/codex"]) :=
  (c3_invalid_mode_rejected baseWorld baseCLI (some "bogus") none none false true none
    "/opt/codex" baseCLICached [Event.spawnedVerify "/opt/codex"] "/tmp/sbx" baseW2 "bogus"
    rfl rfl rfl (by decide)).1

/-- C4 witness: a concrete dry run returns no return code and the dry-run marker. -/
theorem c4_dry_run_witness :
    wit4Result.returncode = none ∧ wit4Result.dry_run = true ∧
    (wit4Result.dry_run = true ↔ wit4Result.returncode = none) := by
  have h := c4_dry_run_no_spawn baseWorld baseCLI none none none true none
  have hex : execute baseWorld baseCLI none none none true true none =
      (.ok wit4Result, [Event.spawnedVerify "/opt/codex"]) := by rfl
  exact ⟨(h.1 wit4Result [Event.spawnedVerify "/opt/codex"] hex).1,
    (h.1 wit4Result [Event.spawnedVerify "/opt/codex"] hex).2.2.2.1,
    h.2 true wit4Result [Event.spawnedVerify "/opt/codex"] hex⟩

/-- C5 witness: a declined confirmation at a concrete prompt yields `Cancelled` with only the verify and confirm events in the trace. -/
theorem c5_confirmation_witness :
    execute baseWorld baseCLI none none none false false none =
      (.error (.cancelled "Codex execution cancelled by user"),
       [Event.spawnedVerify "/opt/codex"] ++ [Event.confirmed wit5Prompt false]) :=
  (((c5_confirmation_gate baseWorld baseCLI none none none false none "/opt/codex" baseCLICached
    [Event.spawnedVerify "/opt/codex"] "/tmp/sbx" baseW2 "suggest"
    ["/opt/codex", "run", "--mode", "suggest", "--sandbox", "/tmp/sbx"] wit5Prompt
    rfl rfl rfl (by decide) rfl rfl).2.2) rfl).1

/-- C6 witness: exit code 2 yields the error carrying command, code, streams, and no message argument. -/
theorem c6_nonzero_exit_witness :
    execute c6World c6CLI none none none false true none =
      (.error (.executionError ["/opt/codex", "run", "--mode", "suggest", "--sandbox", "/tmp/sbx"]
        2 "out" "err" none),
       [Event.spawnedVerify "/opt/codex",
        Event.spawnedRun ["/opt/codex", "run", "--mode", "suggest", "--sandbox", "/tmp/sbx"]]) :=
  (c6_nonzero_exit c6World c6CLI none none none true none "/opt/codex" c6CLICached
    [Event.spawnedVerify "/opt/codex"] "/tmp/sbx" c6W2 "suggest"
    ["/opt/codex", "run", "--mode", "suggest", "--sandbox", "/tmp/sbx"] none 2 "out" "err"
    rfl rfl rfl (by decide) rfl rfl (Or.inl rfl) rfl (by decide)).1

/-- C7 counterexample: with a configured 5-second timeout and a run that times
out, the raised error's `message` is the fixed `Codex execution timed out`,
which does not mention the duration (no `5` anywhere in it), and the carried
stderr is not the captured partial stream but has the note appended. -/
theorem c7_counterexample :
    execute c7World c7CLI none none none false true (some 5) =
      (.error (.executionError
        ["/opt/codex", "run", "--mode", "suggest", "--sandbox", "/tmp/sbx", "--timeout", "5"]
        (-1) "" "\nTimed out after 5s" (some "Codex execution timed out")),
       [Event.spawnedVerify "/opt/codex",
        Event.spawnedRun
          ["/opt/codex", "run", "--mode", "suggest", "--sandbox", "/tmp/sbx", "--timeout", "5"]])
    ∧ execErrorMessage (some "Codex execution timed out") = "Codex execution timed out"
    ∧ ("Codex execution timed out").data.contains '5' = false
    ∧ (c7World.run
        ["/opt/codex", "run", "--mode", "suggest", "--sandbox", "/tmp/sbx", "--timeout", "5"]
        (some 5)) = .timeoutExpired (some "") (some "") :=
  ⟨rfl, rfl, by decide, rfl⟩

/-- C7 witness: the amended timeout behavior at a concrete 5-second timeout. -/
theorem c7_timeout_witness :
    execute c7World c7CLI none none none false true (some 5) =
      (.error (.executionError
        ["/opt/codex", "run", "--mode", "suggest", "--sandbox", "/tmp/sbx", "--timeout", "5"]
        (-1) "" ("" ++ "\nTimed out after " ++ toString (5 : Int) ++ "s")
        (some "Codex execution timed out")),
       [Event.spawnedVerify "/opt/codex"] ++ [] ++
        [Event.spawnedRun
          ["/opt/codex", "run", "--mode", "suggest", "--sandbox", "/tmp/sbx", "--timeout", "5"]]) :=
  (c7_timeout_amended c7World c7CLI none none none true (some 5) "/opt/codex" c7CLICached
    [Event.spawnedVerify "/opt/codex"] "/tmp/sbx" c7W2 "suggest"
    ["/opt/codex", "run", "--mode", "suggest", "--sandbox", "/tmp/sbx", "--timeout", "5"]
    (some 5) (some "") (some "")
    rfl rfl rfl (by decide) rfl rfl (Or.inl rfl) rfl).1

/-- C8 witness: after one resolution through PATH, the cache holds the path and the second call spawns nothing. -/
theorem c8_binary_cache_witness :
    c8CLICached.cached_binary = some "/usr/bin/codex"
    ∧ resolve_binary c8World c8CLICached = (.ok "/usr/bin/codex", c8CLICached, []) :=
  c8_binary_cache c8World c8CLI "/usr/bin/codex" c8CLICached
    [Event.spawnedVerify "/usr/bin/codex"] (by rfl) (by decide)

/-- C9 witness: re-resolving the same override against the world where the directory now exists succeeds with the same path. -/
theorem c9_sandbox_idempotent_witness :
    resolve_sandbox c9W2 (some "/tmp/sbx") c9Settings = .ok ("/tmp/sbx", c9W2) :=
  c9_sandbox_idempotent c9World (some "/tmp/sbx") c9Settings "/tmp/sbx" c9W2 rfl

end Amplifier
